import Mathlib

/-!
Verification of the prompt-correction core of the dspy-fastapi-microservice
repository: the training-example corpus (`dspy_prompt_fixer/examples.py`),
the Claude language-model adapter (`dspy_prompt_fixer/claude_lm.py`), and
the three-tier prompt corrector (`dspy_prompt_fixer/fix_module.py`).

Python strings are embedded as Lean `String` (or `List Char` where character
level reasoning is required), Python exceptions as an explicit `PyExc` value
returned through `Except`, and the external collaborators (the Anthropic
client and the MIPROv2 optimizer) as function parameters supplied by the
caller, so all definitions stay executable.
-/

/-- Model of the Python exceptions raised by this code base.  A Python
function that can raise is embedded as a function into `Except PyExc`. -/
inductive PyExc where
  | valueError (msg : String)
  | runtimeError (msg : String)
  | importError (msg : String)
  | keyError (msg : String)
deriving DecidableEq

/-- `str(e)`: the message carried by the exception. -/
def excMessage : PyExc → String
  | .valueError m => m
  | .runtimeError m => m
  | .importError m => m
  | .keyError m => m

/-- The double-quote character `"`. -/
def dquote : Char := Char.ofNat 34

/-- The single-quote character. -/
def squote : Char := Char.ofNat 39

/-- The arrow character `→` (U+2192) used as a delimiter by the fallback
parser in `fix_module.py`. -/
def arrowChar : Char := Char.ofNat 8594

/-- The whitespace characters stripped by Python `str.strip()` (restricted
to the ASCII whitespace set; all whitespace in this repository is ASCII). -/
def pyIsSpace (c : Char) : Bool :=
  c = ' ' || c = '\t' || c = '\n' || c = '\r' || c = '\x0b' || c = '\x0c'

/-- Remove the leading run of characters satisfying `p`. -/
def stripLeading (p : Char → Bool) (s : List Char) : List Char :=
  s.dropWhile p

/-- Remove the trailing run of characters satisfying `p`. -/
def stripTrailing (p : Char → Bool) (s : List Char) : List Char :=
  (s.reverse.dropWhile p).reverse

/-- Python `s.strip(chars)`: remove the leading and trailing runs of
characters satisfying `p`. -/
def pyStrip (p : Char → Bool) (s : List Char) : List Char :=
  stripTrailing p (stripLeading p s)

/-- Python `s.strip()` on a character list. -/
def pyStripWs (s : List Char) : List Char :=
  pyStrip pyIsSpace s

/-- Python `s.strip()` on a `String`. -/
def pyStripWsStr (s : String) : String :=
  ⟨pyStripWs s.data⟩

/-- Python `m in s`: `m` occurs as a contiguous substring of `s`. -/
def containsSub (m : List Char) : List Char → Bool
  | [] => m.isEmpty
  | c :: rest => m.isPrefixOf (c :: rest) || containsSub m rest

/-- Scan `s` and return the prefix of `s` that precedes the first position
where `m` matches (the whole of `s` if `m` never matches).  Applied to
reversed inputs this locates the last occurrence of a marker. -/
def revBefore (m : List Char) : List Char → List Char
  | [] => []
  | c :: rest => if m.isPrefixOf (c :: rest) then [] else c :: revBefore m rest

/-- The substring of `s` after the last occurrence of the marker `m`
(`s` itself when `m` does not occur).  This is Python
`s.split(m)[-1]` for the markers used here (`"Corrected prompt:"` and
`"→"` have no self-overlap, so the last left-to-right non-overlapping
match of `str.split` is the rightmost match). -/
def afterLast (m s : List Char) : List Char :=
  (revBefore m.reverse s.reverse).reverse

/-! ## Example corpus (`dspy_prompt_fixer/examples.py`) -/

/-- A `dspy.Example(raw_prompt=…, corrected_prompt=…)` pair. -/
structure DspyExample where
  raw_prompt : String
  corrected_prompt : String
deriving DecidableEq

/-- The three module-level example lists of `examples.py`, i.e. the mutable
corpus state. -/
structure Corpus where
  programming : List DspyExample
  speech : List DspyExample
  technical : List DspyExample
deriving DecidableEq

/-- `PROGRAMMING_EXAMPLES` as defined at module load. -/
def PROGRAMMING_EXAMPLES : List DspyExample :=
  [⟨"frogs in ruby", "procs in ruby"⟩,
   ⟨"rails and rels", "rails and routes"⟩,
   ⟨"how to use cads in ruby", "how to use procs in ruby"⟩,
   ⟨"ruby on rails gems", "ruby on rails gems"⟩,
   ⟨"javascript promises and async", "javascript promises and async"⟩,
   ⟨"react hooks and state", "react hooks and state"⟩,
   ⟨"python decorators and functions", "python decorators and functions"⟩,
   ⟨"docker containers and images", "docker containers and images"⟩,
   ⟨"git branches and merging", "git branches and merging"⟩,
   ⟨"sql queries and joins", "sql queries and joins"⟩,
   ⟨"api rest endpoints", "api rest endpoints"⟩,
   ⟨"microservices architecture", "microservices architecture"⟩,
   ⟨"machine learning algorithms", "machine learning algorithms"⟩,
   ⟨"data structures and algorithms", "data structures and algorithms"⟩,
   ⟨"web development frameworks", "web development frameworks"⟩]

/-- `SPEECH_ERROR_EXAMPLES` as defined at module load. -/
def SPEECH_ERROR_EXAMPLES : List DspyExample :=
  [⟨"how to create a new rails app", "how to create a new rails app"⟩,
   ⟨"what is dependency injection", "what is dependency injection"⟩,
   ⟨"explain object oriented programming", "explain object oriented programming"⟩,
   ⟨"how to debug javascript code", "how to debug javascript code"⟩,
   ⟨"what are design patterns", "what are design patterns"⟩,
   ⟨"how to optimize database queries", "how to optimize database queries"⟩,
   ⟨"explain restful api design", "explain restful api design"⟩,
   ⟨"what is continuous integration", "what is continuous integration"⟩,
   ⟨"how to write unit tests", "how to write unit tests"⟩,
   ⟨"explain version control systems", "explain version control systems"⟩]

/-- `TECHNICAL_CORRECTIONS` as defined at module load. -/
def TECHNICAL_CORRECTIONS : List DspyExample :=
  [⟨"lambda functions in python", "lambda functions in python"⟩,
   ⟨"closures and scope in javascript", "closures and scope in javascript"⟩,
   ⟨"inheritance and polymorphism", "inheritance and polymorphism"⟩,
   ⟨"recursion and iteration", "recursion and iteration"⟩,
   ⟨"asynchronous programming patterns", "asynchronous programming patterns"⟩,
   ⟨"memory management in programming", "memory management in programming"⟩,
   ⟨"algorithm complexity analysis", "algorithm complexity analysis"⟩,
   ⟨"software testing methodologies", "software testing methodologies"⟩,
   ⟨"database normalization", "database normalization"⟩,
   ⟨"network protocols and http", "network protocols and http"⟩]

/-- The corpus state at process start. -/
def initialCorpus : Corpus :=
  ⟨PROGRAMMING_EXAMPLES, SPEECH_ERROR_EXAMPLES, TECHNICAL_CORRECTIONS⟩

/-- `get_all_examples()`: the concatenation programming ++ speech ++
technical (lines 57-64 of `examples.py`). -/
def get_all_examples (c : Corpus) : List DspyExample :=
  c.programming ++ c.speech ++ c.technical

/-- `get_examples_by_category(category)`: dictionary lookup with default
`[]` (lines 67-84 of `examples.py`). -/
def get_examples_by_category (c : Corpus) (category : String) : List DspyExample :=
  if category = "programming" then c.programming
  else if category = "speech" then c.speech
  else if category = "technical" then c.technical
  else if category = "all" then get_all_examples c
  else []

/-- `add_example(raw_prompt, corrected_prompt, category)` (lines 87-105 of
`examples.py`): append to the named list, or raise
`ValueError(f"Unknown category: …")`. -/
def add_example (c : Corpus) (raw_prompt corrected_prompt category : String) :
    Except PyExc Corpus :=
  let ex : DspyExample := ⟨raw_prompt, corrected_prompt⟩
  if category = "programming" then .ok { c with programming := c.programming ++ [ex] }
  else if category = "speech" then .ok { c with speech := c.speech ++ [ex] }
  else if category = "technical" then .ok { c with technical := c.technical ++ [ex] }
  else .error (.valueError ("Unknown category: " ++ category))

/-- The four counts returned by `get_example_count()`. -/
structure ExampleCounts where
  programming : Nat
  speech : Nat
  technical : Nat
  total : Nat
deriving DecidableEq

/-- `get_example_count()` (lines 108-120 of `examples.py`). -/
def get_example_count (c : Corpus) : ExampleCounts :=
  ⟨c.programming.length, c.speech.length, c.technical.length,
   (get_all_examples c).length⟩

/-- One attempted `add_example` call: on success the new state, on a raised
`ValueError` the corpus is left as it was (the exception escapes before any
mutation). -/
def applyAdd (c : Corpus) (op : String × String × String) : Corpus :=
  match add_example c op.1 op.2.1 op.2.2 with
  | .ok c2 => c2
  | .error _ => c

/-- A sequence of attempted `add_example` calls starting from a corpus. -/
def runAdds (ops : List (String × String × String)) (c : Corpus) : Corpus :=
  ops.foldl applyAdd c

/-! ## Language-model adapter (`dspy_prompt_fixer/claude_lm.py`) -/

/-- A chat message dictionary `{role, content}` as passed to
`ClaudeLM.__call__` in the `messages` list. -/
structure ChatMsg where
  role : String
  content : String
deriving DecidableEq

/-- The instance configuration of a `ClaudeLM` object.  The temperature is
a float in Python; it is carried here as an opaque type parameter `Temp`
because no logic in the adapter inspects it. -/
structure ClaudeLMState (Temp : Type) where
  model : String
  temperature : Temp
  max_tokens : Nat

/-- The keyword arguments of the single `self.client.messages.create(…)`
call, i.e. exactly what the adapter hands to the Anthropic provider. -/
structure ApiParams (Temp : Type) where
  model : String
  max_tokens : Nat
  temperature : Temp
  system : Option String
  messages : List ChatMsg

/-- The provider response: the `.text` fields of `response.content`. -/
structure ProviderResponse where
  content : List String

/-- One iteration of the `for message in messages` loop of
`ClaudeLM.__call__` (lines 60-64): a system-role entry overwrites
`system_message`, any other entry is appended to `user_messages`. -/
def scanStep (acc : Option String × List ChatMsg) (message : ChatMsg) :
    Option String × List ChatMsg :=
  if message.role = "system" then (some message.content, acc.2)
  else (acc.1, acc.2 ++ [message])

/-- The whole message loop, started from `system_message = None`,
`user_messages = []`. -/
def scanMessages (messages : List ChatMsg) : Option String × List ChatMsg :=
  messages.foldl scanStep (none, [])

/-- The `api_params` dictionary built on lines 66-76 for the `messages`
branch.  `if system_message:` is Python truthiness: the key is added only
when the extracted content is neither `None` nor the empty string. -/
def buildApiParams {Temp : Type} (lm : ClaudeLMState Temp) (temperature : Temp)
    (max_tokens : Nat) (messages : List ChatMsg) : ApiParams Temp :=
  let scanned := scanMessages messages
  { model := lm.model
    max_tokens := max_tokens
    temperature := temperature
    system := match scanned.1 with
              | some s => if s = "" then none else some s
              | none => none
    messages := scanned.2 }

/-- The provider call arguments for the backward-compatibility `prompt`
branch (lines 82-89): a single user turn, no system parameter. -/
def buildPromptParams {Temp : Type} (lm : ClaudeLMState Temp) (temperature : Temp)
    (max_tokens : Nat) (prompt : String) : ApiParams Temp :=
  { model := lm.model
    max_tokens := max_tokens
    temperature := temperature
    system := none
    messages := [⟨"user", prompt⟩] }

/-- Lines 94-97: return the first text segment of the response content, or
the empty string when there are no segments. -/
def extractText (response : ProviderResponse) : String :=
  match response.content with
  | [] => ""
  | t :: _ => t

/-- A single-quote as a string, for reproducing Python messages that quote
argument names. -/
def squoteStr : String := ⟨[squote]⟩

/-- The message of the `ValueError` raised on line 91 of `claude_lm.py`. -/
def invalidRequestMsg : String :=
  "Either " ++ squoteStr ++ "prompt" ++ squoteStr ++ " or " ++ squoteStr ++
    "messages" ++ squoteStr ++ " must be provided"

/-- The body of the `try` block of `ClaudeLM.__call__` (lines 49-97).
`provider` models `self.client.messages.create`; an exception raised by it
is an `.error`.  The `ValueError` for the missing-argument case is raised
inside this same `try` block. -/
def claudeCallBody {Temp : Type} (lm : ClaudeLMState Temp)
    (provider : ApiParams Temp → Except PyExc ProviderResponse)
    (prompt : Option String) (messages : Option (List ChatMsg))
    (kwTemperature : Option Temp) (kwMaxTokens : Option Nat) :
    Except PyExc String :=
  let temperature := kwTemperature.getD lm.temperature
  let max_tokens := kwMaxTokens.getD lm.max_tokens
  match messages with
  | some msgs =>
    match provider (buildApiParams lm temperature max_tokens msgs) with
    | .ok response => .ok (extractText response)
    | .error e => .error e
  | none =>
    match prompt with
    | some p =>
      match provider (buildPromptParams lm temperature max_tokens p) with
      | .ok response => .ok (extractText response)
      | .error e => .error e
    | none => .error (.valueError invalidRequestMsg)

/-- `ClaudeLM.__call__` (lines 37-100): run the `try` body; any exception
is caught by `except Exception` (line 99) and re-raised as
`RuntimeError(f"Error calling Claude API: {str(e)}")`. -/
def claudeCall {Temp : Type} (lm : ClaudeLMState Temp)
    (provider : ApiParams Temp → Except PyExc ProviderResponse)
    (prompt : Option String) (messages : Option (List ChatMsg))
    (kwTemperature : Option Temp) (kwMaxTokens : Option Nat) :
    Except PyExc String :=
  match claudeCallBody lm provider prompt messages kwTemperature kwMaxTokens with
  | .ok s => .ok s
  | .error e => .error (.runtimeError ("Error calling Claude API: " ++ excMessage e))

/-- The content of the last `"system"`-role entry of a message list, if any
system entry is present: an independent right-to-left reading of the phrase
"only the last system-role entry wins". -/
def lastSystemContent : List ChatMsg → Option String
  | [] => none
  | m :: rest =>
    match lastSystemContent rest with
    | some s => some s
    | none => if m.role = "system" then some m.content else none

/-! ## Prompt corrector (`dspy_prompt_fixer/fix_module.py`) -/

/-- A predictor: `raw_prompt` in, the `corrected_prompt` field of the
result out, or a raised exception.  This abstracts both the plain
`dspy.Predict(FixProgrammingPrompt)` module and a MIPRO-compiled module. -/
def Predictor : Type := String → Except PyExc String

/-- The mutable state of a `PromptFixer` instance that the claims concern:
`self.use_optimization` and `self.compiled_module`. -/
structure PromptFixerState where
  use_optimization : Bool
  compiled_module : Option Predictor

/-- `PromptFixer.__init__` (lines 35-45): no compiled module yet. -/
def initPromptFixer (use_optimization : Bool) : PromptFixerState :=
  { use_optimization := use_optimization, compiled_module := none }

/-- One element of the `examples` argument of `compile_with_examples`:
a dict (whose two lookups may each fail with `KeyError`), a
`dspy.Example`, or a value of any other type. -/
inductive ExampleInput where
  | dict (raw_prompt : Option String) (corrected_prompt : Option String)
  | dspyExample (raw_prompt corrected_prompt : String)
  | other
deriving DecidableEq

/-- The body of one iteration of the conversion loop (lines 63-72):
dicts are looked up (`KeyError` when a field is missing, `raw_prompt`
first), `dspy.Example` objects pass through, and any other type raises
`ValueError(f"Invalid example format: {type(example)}")` (the type text in
the message is elided since the offending type is abstracted). -/
def convertExample : ExampleInput → Except PyExc DspyExample
  | .dict (some r) (some c) => .ok ⟨r, c⟩
  | .dict none _ => .error (.keyError "raw_prompt")
  | .dict (some _) none => .error (.keyError "corrected_prompt")
  | .dspyExample r c => .ok ⟨r, c⟩
  | .other => .error (.valueError "Invalid example format")

/-- The conversion loop over the whole list: the first failing element
raises. -/
def convertExamples : List ExampleInput → Except PyExc (List DspyExample)
  | [] => .ok []
  | e :: rest =>
    match convertExample e with
    | .error err => .error err
    | .ok d =>
      match convertExamples rest with
      | .error err => .error err
      | .ok ds => .ok (d :: ds)

/-- The external optimizer machinery used inside the `try` block of
`compile_with_examples`: the `from dspy.teleprompt import MIPROv2` /
`from dspy.evaluate import EM` imports (which may raise `ImportError`) and
the `MIPROv2(metric=EM).compile(module, trainset=…)` call (which may raise
anything). -/
structure OptimizerEnv where
  import_result : Except String Unit
  mipro_compile : List DspyExample → Except PyExc Predictor

/-- The `try` body of `compile_with_examples` (lines 57-82): import, then
convert the examples, then run the optimizer. -/
def compile_try_body (env : OptimizerEnv) (examples : List ExampleInput) :
    Except PyExc Predictor :=
  match env.import_result with
  | .error msg => .error (.importError msg)
  | .ok _ =>
    match convertExamples examples with
    | .error e => .error e
    | .ok dspy_examples => env.mipro_compile dspy_examples

/-- `PromptFixer.compile_with_examples` (lines 47-91).  It returns a state
rather than raising: the `except ImportError` and `except Exception`
handlers both only print a warning and set `use_optimization = False`, so
every modeled exception is absorbed.  The result type is still
`Except PyExc` so that "returns normally" is an actual theorem about the
embedding rather than a typing artifact. -/
def compile_with_examples (env : OptimizerEnv) (st : PromptFixerState)
    (examples : List ExampleInput) : Except PyExc PromptFixerState :=
  if ¬ st.use_optimization then .ok st
  else
    match compile_try_body env examples with
    | .ok compiled => .ok { st with compiled_module := some compiled }
    | .error _ => .ok { st with use_optimization := false }

/-- The dictionary returned by `PromptFixer.get_module_info`
(lines 174-185). -/
structure ModuleInfo where
  use_optimization : Bool
  has_compiled_module : Bool
  module_type : String
deriving DecidableEq

/-- `PromptFixer.get_module_info` (lines 174-185). -/
def get_module_info (st : PromptFixerState) : ModuleInfo :=
  { use_optimization := st.use_optimization
    has_compiled_module := st.compiled_module.isSome
    module_type := "FixProgrammingPrompt" }

/-- The arrow delimiter as a string, for the hand-built fallback prompt. -/
def arrowStr : String := ⟨[arrowChar]⟩

/-- The instruction prompt hand-built by `_fix_prompt_fallback`
(lines 137-148). -/
def build_fallback_prompt (raw_prompt : String) : String :=
  "You are a helpful assistant that corrects programming-related prompts from speech-to-text systems.\n\n" ++
  "Here are some examples of corrections:\n" ++
  "- \"frogs in ruby\" " ++ arrowStr ++ " \"procs in ruby\"\n" ++
  "- \"rails and rels\" " ++ arrowStr ++ " \"rails and routes\"\n" ++
  "- \"how to use cads in ruby\" " ++ arrowStr ++ " \"how to use procs in ruby\"\n\n" ++
  "Please correct the following prompt, making it clearer and more accurate for programming queries. Respond with ONLY the corrected prompt, nothing else.\n\n" ++
  "Raw prompt: \"" ++ raw_prompt ++ "\"\n\n" ++
  "Corrected prompt:"

/-- The literal marker `"Corrected prompt:"` looked for on line 155. -/
def marker : List Char := "Corrected prompt:".data

/-- The quote/whitespace stripping chain applied by the fallback parser to
the text after the marker (lines 156-158 and 166-167):
`.strip()` then `.strip(dquote)` then `.strip(squote)` then `.strip()`,
in exactly that order. -/
def stripChain (s : List Char) : List Char :=
  pyStripWs (pyStrip (fun c => c = squote) (pyStrip (fun c => c = dquote) (pyStripWs s)))

/-- The response parsing of `_fix_prompt_fallback` (lines 153-169):
if the response contains `"Corrected prompt:"`, take the text after its
last occurrence and strip it; otherwise strip the response and, if it
contains `"→"`, take the text after the arrow's last occurrence and strip
it; otherwise return the stripped response. -/
def fixPromptFallbackParse (response : List Char) : List Char :=
  if containsSub marker response then
    stripChain (afterLast marker response)
  else
    let r := pyStripWs response
    if containsSub [arrowChar] r then
      stripChain (afterLast [arrowChar] r)
    else r

/-- The same parser on `String`s, as used inside `_fix_prompt_fallback`. -/
def parse_fallback_response (response : String) : String :=
  ⟨fixPromptFallbackParse response.data⟩

/-- `PromptFixer._fix_prompt_fallback` (lines 120-172).  `lm` models
`dspy.settings.lm` (`none` when no language model is configured) as a
callable from the prompt string to the raw response text.  Everything in
the `try` block that raises — the missing-LM `RuntimeError` and any
exception from the LM call — is re-raised by the `except` clause as
`RuntimeError(f"Error in fallback prompt fixing: {str(e)}")`. -/
def fix_prompt_fallback (lm : Option (String → Except PyExc String))
    (raw_prompt : String) : Except PyExc String :=
  let body : Except PyExc String :=
    match lm with
    | none => .error (.runtimeError "No language model configured")
    | some lmFun =>
      match lmFun (build_fallback_prompt raw_prompt) with
      | .ok response => .ok (parse_fallback_response response)
      | .error e => .error e
  match body with
  | .ok r => .ok r
  | .error e => .error (.runtimeError ("Error in fallback prompt fixing: " ++ excMessage e))

/-- `PromptFixer.fix_prompt` (lines 93-118).  `raw_prompt = none` models a
Python `None` argument; the emptiness check `not raw_prompt or not
raw_prompt.strip()` runs before any predictor is consulted.  Tier 1 (the
compiled module) runs only when a compiled module exists and
`use_optimization` is truthy, otherwise tier 2 (`fix_prompt_module`) runs;
if the chosen structured tier raises, tier 3 (`_fix_prompt_fallback`)
handles the prompt. -/
def fix_prompt (st : PromptFixerState) (fix_prompt_module : Predictor)
    (lm : Option (String → Except PyExc String)) (raw_prompt : Option String) :
    Except PyExc String :=
  match raw_prompt with
  | none => .error (.valueError "Raw prompt cannot be empty")
  | some s =>
    if s = "" ∨ pyStripWsStr s = "" then
      .error (.valueError "Raw prompt cannot be empty")
    else
      let result :=
        match st.compiled_module, st.use_optimization with
        | some compiled, true => compiled s
        | _, _ => fix_prompt_module s
      match result with
      | .ok r => .ok r
      | .error _ => fix_prompt_fallback lm s

/-! ## Definitions taken from the claims (for refinement comparisons) -/

/-- Modelled from the claim/spec words for the fallback parser: "strip
surrounding whitespace and any leading/trailing single or double quote
characters".  Read plainly, the returned value has no leading or trailing
whitespace or quote characters, i.e. the edge runs drawn from the combined
character class are removed. -/
def specQuoteWsStrip (s : List Char) : List Char :=
  pyStrip (fun c => pyIsSpace c || c = dquote || c = squote) s

/-- Modelled from the claim words for the adapter: the system instruction
passed to the provider is the last system-role entry's content (several
entries: the last one wins). -/
def specSystemInstruction (messages : List ChatMsg) : Option String :=
  lastSystemContent messages

/-- An element of `compile_with_examples`'s input list that is neither a
dict with both fields nor a `dspy.Example`. -/
def isInvalidShape : ExampleInput → Bool
  | .dict (some _) (some _) => false
  | .dspyExample _ _ => false
  | .dict _ _ => true
  | .other => true

/-! ## Concrete instances used by witnesses and counterexamples -/

/-- A response in which the text after the marker nests a double-quoted
word inside single quotes. -/
def c1CounterInput : List Char :=
  "Corrected prompt: ".data ++ [squote, dquote, 'x', dquote, squote]

/-- A well-behaved marker response. -/
def c1WitnessInput : List Char := "Corrected prompt: procs in ruby".data

/-- A concrete adapter configuration (temperature carried as `Nat`). -/
def lm0 : ClaudeLMState Nat := ⟨"claude-3-haiku-20240307", 7, 4096⟩

/-- A provider stub that always answers with no content segments. -/
def provider0 : ApiParams Nat → Except PyExc ProviderResponse :=
  fun _ => .ok ⟨[]⟩

/-- A message list whose last system-role entry has empty content. -/
def c5Msgs : List ChatMsg :=
  [⟨"system", "A"⟩, ⟨"system", ""⟩, ⟨"user", "U"⟩]

/-- An optimizer environment in which the imports succeed and the
optimizer itself would fail if reached. -/
def envOkStub : OptimizerEnv :=
  ⟨.ok (), fun _ => .error (.runtimeError "optimizer stub")⟩

/-- An optimizer environment in which the import itself fails. -/
def envImportFail : OptimizerEnv :=
  ⟨.error "No module named dspy.teleprompt", fun _ => .error (.runtimeError "unreachable")⟩

/-- A predictor that echoes its input. -/
def idPredictor : Predictor := fun s => .ok s

/-! ## Supporting lemmas about the substring helpers -/

theorem isPrefixOf_iff_append :
    ∀ (m s : List Char), m.isPrefixOf s = true ↔ ∃ t, s = m ++ t := by
  intro m
  induction m with
  | nil =>
    intro s
    simp [List.isPrefixOf]
  | cons a as ih =>
    intro s
    cases s with
    | nil =>
      simp [List.isPrefixOf]
    | cons b bs =>
      simp only [List.isPrefixOf, Bool.and_eq_true, beq_iff_eq, ih bs]
      constructor
      · rintro ⟨hab, t, ht⟩
        exact ⟨t, by simp [hab, ht]⟩
      · rintro ⟨t, ht⟩
        rw [List.cons_append] at ht
        injection ht with h1 h2
        exact ⟨h1.symm, t, h2⟩

theorem containsSub_iff_append :
    ∀ (m s : List Char), containsSub m s = true ↔ ∃ x y, s = x ++ m ++ y := by
  intro m s
  induction s with
  | nil =>
    simp only [containsSub, List.isEmpty_iff]
    constructor
    · intro h
      exact ⟨[], [], by simp [h]⟩
    · rintro ⟨x, y, h⟩
      have h2 := h.symm
      simp only [List.append_assoc, List.append_eq_nil] at h2
      exact h2.2.1
  | cons c rest ih =>
    simp only [containsSub, Bool.or_eq_true, ih, isPrefixOf_iff_append]
    constructor
    · rintro (⟨t, ht⟩ | ⟨x, y, hxy⟩)
      · exact ⟨[], t, by simp [ht]⟩
      · exact ⟨c :: x, y, by simp [hxy]⟩
    · rintro ⟨x, y, hxy⟩
      cases x with
      | nil =>
        exact Or.inl ⟨y, by simpa using hxy⟩
      | cons x0 xs =>
        right
        rw [List.cons_append, List.cons_append] at hxy
        injection hxy with h1 h2
        exact ⟨xs, y, h2⟩

theorem containsSub_reverse (m s : List Char) :
    containsSub m.reverse s.reverse = true ↔ containsSub m s = true := by
  rw [containsSub_iff_append, containsSub_iff_append]
  constructor
  · rintro ⟨x, y, h⟩
    refine ⟨y.reverse, x.reverse, ?_⟩
    have h2 := congrArg List.reverse h
    simpa [List.append_assoc] using h2
  · rintro ⟨x, y, h⟩
    refine ⟨y.reverse, x.reverse, ?_⟩
    have h2 := congrArg List.reverse h
    simpa [List.append_assoc] using h2

theorem revBefore_append (m : List Char) :
    ∀ s : List Char, ∃ u, s = revBefore m s ++ u := by
  intro s
  induction s with
  | nil => exact ⟨[], rfl⟩
  | cons c rest ih =>
    by_cases h : m.isPrefixOf (c :: rest) = true
    · exact ⟨c :: rest, by simp [revBefore, h]⟩
    · obtain ⟨u, hu⟩ := ih
      refine ⟨u, ?_⟩
      simp only [revBefore, h, if_false, List.cons_append]
      exact congrArg (c :: ·) hu

theorem revBefore_split (m : List Char) :
    ∀ s : List Char, containsSub m s = true →
      ∃ t, s = revBefore m s ++ m ++ t := by
  intro s
  induction s with
  | nil =>
    intro h
    have hm : m = [] := by simpa [containsSub, List.isEmpty_iff] using h
    exact ⟨[], by simp [revBefore, hm]⟩
  | cons c rest ih =>
    intro h
    by_cases hp : m.isPrefixOf (c :: rest) = true
    · obtain ⟨t, ht⟩ := (isPrefixOf_iff_append m (c :: rest)).1 hp
      refine ⟨t, ?_⟩
      simpa [revBefore, hp] using ht
    · have h2 : containsSub m rest = true := by
        simp only [containsSub, Bool.or_eq_true] at h
        rcases h with h | h
        · exact absurd h hp
        · exact h
      obtain ⟨t, ht⟩ := ih h2
      refine ⟨t, ?_⟩
      simp only [revBefore, hp, if_false, List.cons_append, List.append_assoc] at ht ⊢
      exact congrArg (c :: ·) ht

theorem containsSub_revBefore (m : List Char) (hm : m ≠ []) :
    ∀ s : List Char, containsSub m (revBefore m s) = false := by
  intro s
  induction s with
  | nil =>
    cases m with
    | nil => exact absurd rfl hm
    | cons a as => simp [revBefore, containsSub, List.isEmpty]
  | cons c rest ih =>
    by_cases hp : m.isPrefixOf (c :: rest) = true
    · cases m with
      | nil => exact absurd rfl hm
      | cons a as => simp [revBefore, hp, containsSub, List.isEmpty]
    · have hnp : ¬ m.isPrefixOf (c :: revBefore m rest) = true := by
        intro hx
        obtain ⟨t, htt⟩ := (isPrefixOf_iff_append _ _).1 hx
        obtain ⟨u, hu⟩ := revBefore_append m rest
        have hdecomp : c :: rest = m ++ (t ++ u) := by
          calc c :: rest = c :: (revBefore m rest ++ u) := by rw [← hu]
            _ = (c :: revBefore m rest) ++ u := by simp
            _ = (m ++ t) ++ u := by rw [htt]
            _ = m ++ (t ++ u) := by simp [List.append_assoc]
        exact hp ((isPrefixOf_iff_append m (c :: rest)).2 ⟨t ++ u, hdecomp⟩)
      simp only [revBefore, hp, if_false, containsSub, Bool.or_eq_false_iff]
      constructor
      · exact Bool.eq_false_iff.2 hnp
      · exact ih

theorem afterLast_split (m s : List Char) (hm : m ≠ [])
    (hc : containsSub m s = true) :
    (∃ pre, s = pre ++ m ++ afterLast m s) ∧
      containsSub m (afterLast m s) = false := by
  have hmr : m.reverse ≠ [] := by simpa using hm
  have hcr : containsSub m.reverse s.reverse = true :=
    (containsSub_reverse m s).2 hc
  obtain ⟨t, ht⟩ := revBefore_split m.reverse s.reverse hcr
  constructor
  · refine ⟨t.reverse, ?_⟩
    have h2 := congrArg List.reverse ht
    simpa [afterLast, List.append_assoc] using h2
  · have h2 := containsSub_revBefore m.reverse hmr s.reverse
    have h3 :
        containsSub m.reverse (afterLast m s).reverse =
          containsSub m.reverse (revBefore m.reverse s.reverse) := by
      simp [afterLast]
    cases hfin : containsSub m (afterLast m s) with
    | false => rfl
    | true =>
      have h4 : containsSub m.reverse (afterLast m s).reverse = true :=
        (containsSub_reverse m (afterLast m s)).2 hfin
      rw [h3] at h4
      rw [h2] at h4
      exact absurd h4 (by simp)

/-! ## Supporting lemmas about the adapter's message loop -/

theorem scanStep_foldl_fst :
    ∀ (msgs : List ChatMsg) (acc : Option String × List ChatMsg),
      (msgs.foldl scanStep acc).1 =
        match lastSystemContent msgs with
        | some s => some s
        | none => acc.1 := by
  intro msgs
  induction msgs with
  | nil => intro acc; rfl
  | cons m rest ih =>
    intro acc
    rw [List.foldl_cons, ih]
    by_cases h : m.role = "system" <;>
      cases hl : lastSystemContent rest <;>
        simp [scanStep, lastSystemContent, h, hl]

theorem scanStep_foldl_snd :
    ∀ (msgs : List ChatMsg) (acc : Option String × List ChatMsg),
      (msgs.foldl scanStep acc).2 =
        acc.2 ++ msgs.filter (fun m => decide (m.role ≠ "system")) := by
  intro msgs
  induction msgs with
  | nil => intro acc; simp
  | cons m rest ih =>
    intro acc
    rw [List.foldl_cons, ih]
    by_cases h : m.role = "system" <;>
      simp [scanStep, List.filter_cons, h]

/-! ## Supporting lemmas about the compile step -/

theorem convertExample_error_of_invalid (e : ExampleInput)
    (h : isInvalidShape e = true) : ∃ err, convertExample e = .error err := by
  cases e with
  | dict r c =>
    cases r with
    | none => exact ⟨.keyError "raw_prompt", rfl⟩
    | some rv =>
      cases c with
      | none => exact ⟨.keyError "corrected_prompt", rfl⟩
      | some cv => simp [isInvalidShape] at h
  | dspyExample r c => simp [isInvalidShape] at h
  | other => exact ⟨.valueError "Invalid example format", rfl⟩

theorem convertExamples_error_of_invalid :
    ∀ (examples : List ExampleInput),
      examples.any isInvalidShape = true →
        ∃ err, convertExamples examples = .error err := by
  intro examples
  induction examples with
  | nil => intro h; simp [List.any] at h
  | cons e rest ih =>
    intro h
    by_cases he : isInvalidShape e = true
    · obtain ⟨err, herr⟩ := convertExample_error_of_invalid e he
      exact ⟨err, by simp [convertExamples, herr]⟩
    · have hrest : rest.any isInvalidShape = true := by
        simp only [List.any_cons, Bool.or_eq_true] at h
        rcases h with h | h
        · exact absurd h he
        · exact h
      obtain ⟨err, herr⟩ := ih hrest
      have hok : ∃ d, convertExample e = .ok d := by
        cases e with
        | dict r c =>
          cases r with
          | none => simp [isInvalidShape] at he
          | some rv =>
            cases c with
            | none => simp [isInvalidShape] at he
            | some cv => exact ⟨⟨rv, cv⟩, rfl⟩
        | dspyExample r c => exact ⟨⟨r, c⟩, rfl⟩
        | other => simp [isInvalidShape] at he
      obtain ⟨d, hd⟩ := hok
      exact ⟨err, by simp [convertExamples, hd, herr]⟩

/-! ## Supporting lemma about whitespace-only strings -/

theorem pyStrip_eq_nil_of_all (p : Char → Bool) :
    ∀ (l : List Char), l.all p = true → pyStrip p l = [] := by
  intro l h
  have hdrop : ∀ (l2 : List Char), l2.all p = true → l2.dropWhile p = [] := by
    intro l2
    induction l2 with
    | nil => intro _; rfl
    | cons c rest ih =>
      intro h2
      simp only [List.all_cons, Bool.and_eq_true] at h2
      simp [List.dropWhile_cons, h2.1, ih h2.2]
  have h1 : stripLeading p l = [] := hdrop l h
  unfold pyStrip
  rw [h1]
  rfl

/-! ## Supporting lemmas about the corpus reads -/

theorem get_by_programming (c : Corpus) :
    get_examples_by_category c "programming" = c.programming := by
  unfold get_examples_by_category
  rw [if_pos rfl]

theorem get_by_speech (c : Corpus) :
    get_examples_by_category c "speech" = c.speech := by
  unfold get_examples_by_category
  rw [if_neg (by decide), if_pos rfl]

theorem get_by_technical (c : Corpus) :
    get_examples_by_category c "technical" = c.technical := by
  unfold get_examples_by_category
  rw [if_neg (by decide), if_neg (by decide), if_pos rfl]

theorem get_by_all (c : Corpus) :
    get_examples_by_category c "all" = get_all_examples c := by
  unfold get_examples_by_category
  rw [if_neg (by decide), if_neg (by decide), if_neg (by decide), if_pos rfl]

/-! ## Claim theorems -/

/-- C7: in every corpus state reachable by any sequence of successful add
operations (every attempted `add_example`, the failing ones leaving the
state untouched), `get_example_count` agrees with the length of
`get_examples_by_category` for each real category, and the reported total
equals the sum of the three real-category counts. -/
theorem c7_counts_invariant (ops : List (String × String × String)) :
    (get_example_count (runAdds ops initialCorpus)).programming =
      (get_examples_by_category (runAdds ops initialCorpus) "programming").length ∧
    (get_example_count (runAdds ops initialCorpus)).speech =
      (get_examples_by_category (runAdds ops initialCorpus) "speech").length ∧
    (get_example_count (runAdds ops initialCorpus)).technical =
      (get_examples_by_category (runAdds ops initialCorpus) "technical").length ∧
    (get_example_count (runAdds ops initialCorpus)).total =
      (get_example_count (runAdds ops initialCorpus)).programming +
        (get_example_count (runAdds ops initialCorpus)).speech +
        (get_example_count (runAdds ops initialCorpus)).technical := by
  refine ⟨?_, ?_, ?_, ?_⟩
  · rw [get_by_programming]; rfl
  · rw [get_by_speech]; rfl
  · rw [get_by_technical]; rfl
  · simp [get_example_count, get_all_examples]
    omega

/-- C8: in every corpus state, `get_examples_by_category "all"` is the
identical sequence as `get_all_examples`, and that sequence is the
concatenation programming ++ speech ++ technical in that fixed order. -/
theorem c8_all_is_concatenation (c : Corpus) :
    get_examples_by_category c "all" = get_all_examples c ∧
    get_all_examples c = c.programming ++ c.speech ++ c.technical := by
  exact ⟨get_by_all c, rfl⟩

/-- C9: reading an unrecognized category returns the empty sequence
without error, while `add_example` with any category outside
{programming, speech, technical} (including "all") raises
`ValueError("Unknown category: …")` and leaves the corpus unchanged. -/
theorem c9_read_write_asymmetry (c : Corpus) (name cat raw corr : String)
    (hname : name ∉ (["programming", "speech", "technical", "all"] : List String))
    (hcat : cat ∉ (["programming", "speech", "technical"] : List String)) :
    get_examples_by_category c name = [] ∧
    add_example c raw corr cat = .error (.valueError ("Unknown category: " ++ cat)) ∧
    applyAdd c (raw, corr, cat) = c := by
  simp only [List.mem_cons, List.not_mem_nil, or_false, not_or] at hname hcat
  obtain ⟨hn1, hn2, hn3, hn4⟩ := hname
  obtain ⟨hc1, hc2, hc3⟩ := hcat
  have hread : get_examples_by_category c name = [] := by
    unfold get_examples_by_category
    rw [if_neg hn1, if_neg hn2, if_neg hn3, if_neg hn4]
  have hwrite : add_example c raw corr cat =
      .error (.valueError ("Unknown category: " ++ cat)) := by
    unfold add_example
    rw [if_neg hc1, if_neg hc2, if_neg hc3]
  refine ⟨hread, hwrite, ?_⟩
  unfold applyAdd
  rw [hwrite]

/-- C9 witness: the unrecognized read name "nonexistent" and the write
category "all" on the initial corpus. -/
theorem c9_witness :
    get_examples_by_category initialCorpus "nonexistent" = [] ∧
    add_example initialCorpus "raw" "corr" "all" =
      .error (.valueError ("Unknown category: " ++ "all")) ∧
    applyAdd initialCorpus ("raw", "corr", "all") = initialCorpus :=
  c9_read_write_asymmetry initialCorpus "nonexistent" "all" "raw" "corr"
    (by decide) (by decide)

/-- C1 counterexample: on the response `Corrected prompt: '"x"'` the code
returns `"x"` — a value that still begins and ends with a double-quote
character — whereas the claim prescribes the text after the last marker
with surrounding whitespace and leading/trailing single/double quote
characters stripped, which is the bare `x`.  The sequential
strip-double-then-single order of the code cannot remove a double quote
nested inside single quotes. -/
theorem c1_counterexample :
    containsSub marker c1CounterInput = true ∧
    fixPromptFallbackParse c1CounterInput = [dquote, 'x', dquote] ∧
    specQuoteWsStrip (afterLast marker c1CounterInput) = ['x'] ∧
    fixPromptFallbackParse c1CounterInput ≠
      specQuoteWsStrip (afterLast marker c1CounterInput) := by
  refine ⟨by decide, by decide, by decide, by decide⟩

/-- C1 (amended): for every adapter response `r` handled by the fallback
tier, if `r` contains the marker `"Corrected prompt:"` then the returned
value is the substring after the last occurrence of the marker (witnessed
by a decomposition whose tail contains no further marker) stripped in the
code's order — whitespace, then double quotes, then single quotes, then
whitespace — so that a quote character nested inside quotes of the other
kind may remain; otherwise, with `r` first trimmed of surrounding
whitespace, if the trimmed response contains the arrow `"→"` the returned
value is the substring after the arrow's last occurrence with the same
sequential stripping; otherwise the returned value is the trimmed
response verbatim. -/
theorem c1_fallback_parsing (r : List Char) :
    (containsSub marker r = true →
      ∃ pre aft, r = pre ++ marker ++ aft ∧ containsSub marker aft = false ∧
        fixPromptFallbackParse r = stripChain aft) ∧
    (containsSub marker r = false →
      containsSub [arrowChar] (pyStripWs r) = true →
      ∃ pre aft, pyStripWs r = pre ++ [arrowChar] ++ aft ∧
        containsSub [arrowChar] aft = false ∧
        fixPromptFallbackParse r = stripChain aft) ∧
    (containsSub marker r = false →
      containsSub [arrowChar] (pyStripWs r) = false →
      fixPromptFallbackParse r = pyStripWs r) := by
  refine ⟨?_, ?_, ?_⟩
  · intro h
    obtain ⟨⟨pre, hp⟩, hno⟩ := afterLast_split marker r (by decide) h
    exact ⟨pre, afterLast marker r, hp, hno, by simp [fixPromptFallbackParse, h]⟩
  · intro h1 h2
    obtain ⟨⟨pre, hp⟩, hno⟩ :=
      afterLast_split [arrowChar] (pyStripWs r) (by decide) h2
    exact ⟨pre, afterLast [arrowChar] (pyStripWs r), hp, hno,
      by simp [fixPromptFallbackParse, h1, h2]⟩
  · intro h1 h2
    simp [fixPromptFallbackParse, h1, h2]

/-- C1 witness: the marker branch at the concrete response
`Corrected prompt: procs in ruby`. -/
theorem c1_witness :
    ∃ pre aft, c1WitnessInput = pre ++ marker ++ aft ∧
      containsSub marker aft = false ∧
      fixPromptFallbackParse c1WitnessInput = stripChain aft :=
  (c1_fallback_parsing c1WitnessInput).1 (by decide)

/-- C4 counterexample: calling the adapter with neither `prompt` nor
`messages` does not surface the `ValueError` (the InvalidRequest
category): the `raise` sits inside the `try` block, so `except Exception`
re-wraps it into the `RuntimeError("Error calling Claude API: …")` shape —
the very wrapper the spec reserves for transport/provider failures — and
that is what the caller sees. -/
theorem c4_counterexample :
    claudeCall lm0 provider0 none none none none =
      .error (.runtimeError ("Error calling Claude API: " ++ invalidRequestMsg)) ∧
    claudeCall lm0 provider0 none none none none ≠
      .error (.valueError invalidRequestMsg) := by
  constructor
  · rfl
  · intro h
    rw [show claudeCall lm0 provider0 none none none none =
          .error (.runtimeError ("Error calling Claude API: " ++ invalidRequestMsg))
        from rfl] at h
    simp at h

/-- C4 (amended): calling the adapter's generate with neither `prompt` nor
`messages` supplied fails, but not with a bare InvalidRequest: the
internal `ValueError` is caught by the adapter's blanket exception handler
and surfaces as the `RuntimeError` provider-error wrapper whose message
prefixes "Error calling Claude API: " to the InvalidRequest message.  No
provider call is made (the result is the same for every provider). -/
theorem c4_missing_arguments (Temp : Type) (lm : ClaudeLMState Temp)
    (provider : ApiParams Temp → Except PyExc ProviderResponse)
    (kwTemperature : Option Temp) (kwMaxTokens : Option Nat) :
    claudeCall lm provider none none kwTemperature kwMaxTokens =
      .error (.runtimeError ("Error calling Claude API: " ++ invalidRequestMsg)) :=
  rfl

/-- C5 counterexample: in a message list whose last system-role entry has
empty content, the claim says the last entry's content (the empty string)
wins and is passed to the provider as the system instruction, but the code
guards the parameter with Python truthiness (`if system_message:`) and
passes no system instruction at all — even though an earlier system entry
had non-empty content "A". -/
theorem c5_counterexample :
    specSystemInstruction c5Msgs = some "" ∧
    (buildApiParams lm0 7 4096 c5Msgs).system = none ∧
    (buildApiParams lm0 7 4096 c5Msgs).system ≠ specSystemInstruction c5Msgs := by
  refine ⟨rfl, rfl, by decide⟩

/-- C5 (amended): for every messages sequence, the provider receives
exactly the non-system entries in their original relative order as the
conversational turns, and the system instruction is determined by the last
system-role entry's content — except that when that winning content is the
empty string (or no system entry exists) no system instruction is passed
at all; when only `prompt` is supplied it is sent as a single user turn
with no system instruction. -/
theorem c5_system_extraction (Temp : Type) (lm : ClaudeLMState Temp)
    (temperature : Temp) (max_tokens : Nat) (messages : List ChatMsg)
    (prompt : String) :
    (buildApiParams lm temperature max_tokens messages).messages =
      messages.filter (fun m => decide (m.role ≠ "system")) ∧
    (buildApiParams lm temperature max_tokens messages).system =
      (match lastSystemContent messages with
       | some s => if s = "" then none else some s
       | none => none) ∧
    (buildPromptParams lm temperature max_tokens prompt).messages =
      [⟨"user", prompt⟩] ∧
    (buildPromptParams lm temperature max_tokens prompt).system = none := by
  refine ⟨?_, ?_, rfl, rfl⟩
  · show (scanMessages messages).2 = _
    rw [scanMessages, scanStep_foldl_snd]
    simp
  · show (match (scanMessages messages).1 with
          | some s => if s = "" then none else some s
          | none => none) = _
    rw [scanMessages, scanStep_foldl_fst]
    cases lastSystemContent messages <;> rfl

/-- C10: when both `prompt` and `messages` are supplied, `__call__` takes
the messages branch and ignores the prompt argument entirely, so the call
behaves exactly as if only `messages` had been supplied. -/
theorem c10_messages_shadow_prompt (Temp : Type) (lm : ClaudeLMState Temp)
    (provider : ApiParams Temp → Except PyExc ProviderResponse)
    (prompt : String) (messages : List ChatMsg)
    (kwTemperature : Option Temp) (kwMaxTokens : Option Nat) :
    claudeCall lm provider (some prompt) (some messages) kwTemperature kwMaxTokens =
      claudeCall lm provider none (some messages) kwTemperature kwMaxTokens :=
  rfl

/-- C2: when the optimizer machinery fails during compile on a fresh
instance — an `ImportError` from the optimizer package being unavailable,
or any exception from conversion or the optimizer itself — compile returns
normally (no exception escapes), optimization is permanently disabled
(`use_optimization` becomes false and every later compile on the disabled
state is a no-op), `get_module_info` afterwards reports
`has_compiled_module = false`, and a subsequent `fix_prompt` on a
non-blank prompt runs tier 2 and, if that raises, tier 3 — never an error
caused by the failed compile. -/
theorem c2_compile_failure_degrades
    (env : OptimizerEnv) (examples : List ExampleInput) (e : PyExc)
    (p : Predictor) (lm : Option (String → Except PyExc String)) (s : String)
    (env2 : OptimizerEnv) (examples2 : List ExampleInput)
    (hfail : compile_try_body env examples = .error e)
    (hs : pyStripWsStr s ≠ "") :
    compile_with_examples env (initPromptFixer true) examples =
      .ok ⟨false, none⟩ ∧
    (get_module_info ⟨false, none⟩).has_compiled_module = false ∧
    compile_with_examples env2 ⟨false, none⟩ examples2 = .ok ⟨false, none⟩ ∧
    fix_prompt ⟨false, none⟩ p lm (some s) =
      (match p s with
       | .ok r => .ok r
       | .error _ => fix_prompt_fallback lm s) := by
  have hcond : ¬ (s = "" ∨ pyStripWsStr s = "") := by
    rintro (rfl | h)
    · exact hs rfl
    · exact hs h
  refine ⟨?_, rfl, rfl, ?_⟩
  · simp [compile_with_examples, initPromptFixer, hfail]
  · simp only [fix_prompt]
    rw [if_neg hcond]

/-- C2 witness: a failing import on a fresh instance, then a fix of "hi"
with the identity predictor. -/
theorem c2_witness :
    compile_with_examples envImportFail (initPromptFixer true) [] =
      .ok ⟨false, none⟩ ∧
    (get_module_info ⟨false, none⟩).has_compiled_module = false ∧
    compile_with_examples envOkStub ⟨false, none⟩ [ExampleInput.other] =
      .ok ⟨false, none⟩ ∧
    fix_prompt ⟨false, none⟩ idPredictor none (some "hi") =
      (match idPredictor "hi" with
       | .ok r => .ok r
       | .error _ => fix_prompt_fallback none "hi") :=
  c2_compile_failure_degrades envImportFail []
    (.importError "No module named dspy.teleprompt") idPredictor none "hi"
    envOkStub [ExampleInput.other] rfl (by decide)

/-- C3 counterexample: with the optimizer imports available and a fresh
optimizing instance, compiling a list containing an element of invalid
shape does not surface any error: the `ValueError("Invalid example
format…")` raised by the conversion loop is caught by the same broad
`except Exception` that absorbs optimizer failures, and compile returns
normally with optimization disabled. -/
theorem c3_counterexample :
    convertExample ExampleInput.other =
      .error (.valueError "Invalid example format") ∧
    compile_with_examples envOkStub (initPromptFixer true) [ExampleInput.other] =
      .ok ⟨false, none⟩ :=
  ⟨rfl, rfl⟩

/-- C3 (amended): for every input sequence given to compile containing an
element that is neither a dict with both fields nor an Example object, and
a fresh instance with optimization requested and the optimizer imports
available, the internally raised error (ValueError for a foreign type,
KeyError for a dict missing a field) is swallowed by the broad exception
handler: compile returns normally with optimization permanently disabled
and no compiled module — the error never reaches the caller.  (When
optimization was not requested, compile is a no-op and never validates.) -/
theorem c3_invalid_example_swallowed (env : OptimizerEnv)
    (examples : List ExampleInput)
    (himp : env.import_result = .ok ())
    (hbad : examples.any isInvalidShape = true) :
    compile_with_examples env (initPromptFixer true) examples =
      .ok ⟨false, none⟩ := by
  obtain ⟨err, herr⟩ := convertExamples_error_of_invalid examples hbad
  have hbody : compile_try_body env examples = .error err := by
    unfold compile_try_body
    rw [himp, herr]
  simp [compile_with_examples, initPromptFixer, hbody]

/-- C3 witness: a dict missing both fields. -/
theorem c3_witness :
    compile_with_examples envOkStub (initPromptFixer true)
      [ExampleInput.dict none none] = .ok ⟨false, none⟩ :=
  c3_invalid_example_swallowed envOkStub [ExampleInput.dict none none]
    rfl (by decide)

/-- C6: `fix_prompt` fails with `ValueError("Raw prompt cannot be empty")`
for an absent (`None`) input, the empty string, and any string consisting
entirely of whitespace — before any predictor or adapter is invoked (the
result does not depend on the predictor, the language model, or the
instance state, which are all arbitrary here). -/
theorem c6_empty_input (st : PromptFixerState) (p : Predictor)
    (lm : Option (String → Except PyExc String)) (s : String)
    (hws : s.data.all pyIsSpace = true) :
    fix_prompt st p lm none = .error (.valueError "Raw prompt cannot be empty") ∧
    fix_prompt st p lm (some "") =
      .error (.valueError "Raw prompt cannot be empty") ∧
    fix_prompt st p lm (some s) =
      .error (.valueError "Raw prompt cannot be empty") := by
  refine ⟨rfl, ?_, ?_⟩
  · simp [fix_prompt]
  · have hstrip : pyStripWsStr s = "" := by
      unfold pyStripWsStr pyStripWs
      rw [pyStrip_eq_nil_of_all pyIsSpace s.data hws]
    simp [fix_prompt, hstrip]

/-- C6 witness: `None`, the empty string, and three spaces. -/
theorem c6_witness :
    fix_prompt (initPromptFixer true) idPredictor none none =
      .error (.valueError "Raw prompt cannot be empty") ∧
    fix_prompt (initPromptFixer true) idPredictor none (some "") =
      .error (.valueError "Raw prompt cannot be empty") ∧
    fix_prompt (initPromptFixer true) idPredictor none (some "   ") =
      .error (.valueError "Raw prompt cannot be empty") :=
  c6_empty_input (initPromptFixer true) idPredictor none "   " (by decide)
